import Mathlib

/-!
Shallow embedding of `src/src/imageomics/wds.py` (class `ShardWriter`).

Modelling decisions:

* Python attributes that `close()` deletes (`tarstream`, `shard`, `count`,
  `size`) are `Option`-valued fields where `none` means "attribute deleted";
  reading a deleted attribute yields `PyErr.attributeError`.  `tarstream`
  itself can also hold Python's `None`, hence the nested
  `Option (Option Tar)`: `some none` is an existing attribute holding `None`.
* Python exceptions leave the object in whatever state the method had
  reached, so every operation returns `Writer × Option PyErr`
  (the state at the point of return or raise, plus the raised error if any).
* The underlying `webdataset.TarWriter` is opaque: its `write(obj)` either
  returns a byte count or raises, which we encode in the sample itself
  (`WriteObj.ok bytes` / `WriteObj.err`); its `close()` is observable through
  the ghost fields `closes` (number of underlying closes performed) and
  `closedLog` (finalized shards with the byte counts of their records).
* `self.pattern % self.shard` is modelled by a token list with literal pieces
  and integer substitution sites; as in Python, formatting succeeds exactly
  when there is one site, and otherwise raises a `TypeError`.
* The shared `multiprocessing.Value` counter is an integer field plus the
  atomic claim operation `claimNext`; the lock in `next_stream` makes each
  read-increment atomic, so a concurrent execution of one claim per caller
  is an interleaving, i.e. some ordering of the callers (`runClaims`).
-/

namespace Wds

inductive PyErr where
  | typeError
  | attributeError
  | assertionError
  | writeError
deriving DecidableEq, Repr

/-- The opaque underlying archive writer: we record the byte counts of the
records successfully written to it. -/
structure Tar where
  writes : List Nat
deriving DecidableEq, Repr

/-- A token of the filename pattern: a literal piece or an integer
substitution site (`%d`-like). -/
inductive PatTok where
  | lit (s : String)
  | dsite
deriving DecidableEq, Repr

def countSites : List PatTok → Nat
  | [] => 0
  | PatTok.lit _ :: ts => countSites ts
  | PatTok.dsite :: ts => 1 + countSites ts

def renderPat (ts : List PatTok) (n : Nat) : String :=
  match ts with
  | [] => ""
  | PatTok.lit s :: ts => s ++ renderPat ts n
  | PatTok.dsite :: ts => toString n ++ renderPat ts n

/-- A sample handed to `write`, bundled with the behaviour of the underlying
`tarstream.write` on it: it reports a byte count or raises. -/
inductive WriteObj where
  | ok (bytes : Nat)
  | err
deriving DecidableEq, Repr

/-- State of a `ShardWriter` instance, together with the shared counter it
references and ghost observation fields. -/
structure Writer where
  maxcount : Nat
  maxsize : Nat
  pattern : List PatTok
  total : Nat
  fname : Option String
  tarstream : Option (Option Tar)
  shard : Option Nat
  count : Option Nat
  size : Option Nat
  counter : Nat
  closes : Nat
  closedLog : List (Option String × List Nat)
deriving DecidableEq, Repr

/-- Result of a Python method call: the object state at return or at the
point the exception escaped, plus the exception if one was raised. -/
def Res : Type := Writer × Option PyErr

def bindR (r : Res) (f : Writer → Res) : Res :=
  match r with
  | (w, none) => f w
  | (w, some e) => (w, some e)

/-- The lock-protected read-increment in `next_stream` (lines 46-48):
returns the value read and the new counter. -/
def claimNext (c : Nat) : Nat × Nat := (c, c + 1)

/-- `ShardWriter.finish`: if `tarstream` is not `None`, close it, log the
closure (reads `fname`), assert `fname is not None`, set `tarstream = None`. -/
def finish (w : Writer) : Res :=
  match w.tarstream with
  | none => (w, some PyErr.attributeError)
  | some none => (w, none)
  | some (some t) =>
    let w := { w with closes := w.closes + 1,
                      closedLog := w.closedLog ++ [(w.fname, t.writes)] }
    match w.fname with
    | none => (w, some PyErr.assertionError)
    | some _ => ({ w with tarstream := some none }, none)

/-- `ShardWriter.next_stream`: finish, claim the next shard index under the
lock, format the pattern, open the file and a fresh `TarWriter`, reset the
per-shard counters. -/
def next_stream (w : Writer) : Res :=
  bindR (finish w) fun w =>
    let (i, c) := claimNext w.counter
    let w := { w with shard := some i, counter := c }
    if countSites w.pattern = 1 then
      let f := renderPat w.pattern i
      ({ w with fname := some f, tarstream := some (some ⟨[]⟩),
                count := some 0, size := some 0 }, none)
    else
      (w, some PyErr.typeError)

/-- The rotation test of `ShardWriter.write`, with Python's short-circuit
attribute reads: `tarstream is None or count >= maxcount or size >= maxsize`. -/
def rotCond (w : Writer) (ts : Option Tar) : Sum PyErr Bool :=
  match ts with
  | none => Sum.inr true
  | some _ =>
    match w.count with
    | none => Sum.inl PyErr.attributeError
    | some c =>
      if w.maxcount ≤ c then Sum.inr true
      else
        match w.size with
        | none => Sum.inl PyErr.attributeError
        | some s => Sum.inr (decide (w.maxsize ≤ s))

/-- `ShardWriter.write`: rotate if needed, then delegate to the underlying
writer and update `count`, `total`, `size` in that order. -/
def write (w : Writer) (obj : WriteObj) : Res :=
  match w.tarstream with
  | none => (w, some PyErr.attributeError)
  | some ts =>
    match rotCond w ts with
    | Sum.inl e => (w, some e)
    | Sum.inr needRot =>
      bindR (if needRot then next_stream w else (w, none)) fun w =>
        match w.tarstream with
        | none => (w, some PyErr.attributeError)
        | some none => (w, some PyErr.attributeError)
        | some (some t) =>
          match obj with
          | WriteObj.err => (w, some PyErr.writeError)
          | WriteObj.ok sz =>
            let w := { w with tarstream := some (some ⟨t.writes ++ [sz]⟩) }
            match w.count with
            | none => (w, some PyErr.attributeError)
            | some c =>
              let w := { w with count := some (c + 1) }
              let w := { w with total := w.total + 1 }
              match w.size with
              | none => (w, some PyErr.attributeError)
              | some s => ({ w with size := some (s + sz) }, none)

/-- `ShardWriter.close`: finish, then delete the four attributes in order. -/
def close (w : Writer) : Res :=
  bindR (finish w) fun w =>
    match w.tarstream with
    | none => (w, some PyErr.attributeError)
    | some _ =>
      let w := { w with tarstream := none }
      match w.shard with
      | none => (w, some PyErr.attributeError)
      | some _ =>
        let w := { w with shard := none }
        match w.count with
        | none => (w, some PyErr.attributeError)
        | some _ =>
          let w := { w with count := none }
          match w.size with
          | none => (w, some PyErr.attributeError)
          | some _ => ({ w with size := none }, none)

/-- `ShardWriter.__exit__`: calls `close`. -/
def exitContext (w : Writer) : Res := close w

/-- The field assignments of `ShardWriter.__init__` before its final call to
`next_stream` (no `shard` attribute exists yet). -/
def initPre (pattern : List PatTok) (counter maxcount maxsize : Nat) : Writer :=
  { maxcount := maxcount, maxsize := maxsize, pattern := pattern,
    total := 0, fname := none, tarstream := some none, shard := none,
    count := some 0, size := some 0, counter := counter,
    closes := 0, closedLog := [] }

/-- `ShardWriter.__init__`: field assignments, then `next_stream`. -/
def init (pattern : List PatTok) (counter maxcount maxsize : Nat) : Res :=
  next_stream (initPre pattern counter maxcount maxsize)

/-- Run a sequence of `write` calls, stopping at the first raised error and
keeping the state at that point. -/
def runWrites (w : Writer) : List WriteObj → Res
  | [] => (w, none)
  | o :: os =>
    match write w o with
    | (w', none) => runWrites w' os
    | (w', some e) => (w', some e)

/-- One atomic claim per caller, in the order of an arbitrary interleaving
schedule: each caller is paired with the shard index it received. -/
def runClaims (c : Nat) : List α → List (α × Nat) × Nat
  | [] => ([], c)
  | a :: rest =>
    let (v, c') := claimNext c
    let (res, c'') := runClaims c' rest
    ((a, v) :: res, c'')

/-- A `with` block around a writer: run the body (a sequence of writes), then
`__exit__` runs `close` exactly once; an error from `close` replaces the
body's error, otherwise the body's error propagates. -/
def withBlock (w : Writer) (objs : List WriteObj) : Res :=
  let r := runWrites w objs
  match close r.1 with
  | (wc, none) => (wc, r.2)
  | (wc, some ce) => (wc, some ce)

/-- A live (open, usable) writer state created from a counter initially at
`k0`: good pattern, an open stream, all deletable attributes present, and the
counter accounting for one claimed-but-not-yet-closed shard. -/
def Live (k0 : Nat) (w : Writer) : Prop :=
  countSites w.pattern = 1 ∧
  (∃ t, w.tarstream = some (some t)) ∧
  (∃ c, w.count = some c) ∧
  (∃ s, w.size = some s) ∧
  (∃ i, w.shard = some i) ∧
  (∃ f, w.fname = some f) ∧
  w.counter = k0 + w.closes + 1

/-- The boolean value of the rotation test on a state whose attributes are
all readable; mirrors `rotCond`. -/
def willRotate (w : Writer) : Bool :=
  match w.tarstream with
  | some (some _) =>
    match w.count, w.size with
    | some c, some s => decide (w.maxcount ≤ c) || decide (w.maxsize ≤ s)
    | _, _ => false
  | _ => true

/-- A concrete well-formed pattern used in the concrete scenarios. -/
def patC : List PatTok := [PatTok.lit "shard-", PatTok.dsite, PatTok.lit ".tar"]

lemma finish_open (w : Writer) (t : Tar) (f : String)
    (ht : w.tarstream = some (some t)) (hf : w.fname = some f) :
    finish w = ({ w with tarstream := some none, closes := w.closes + 1,
                         closedLog := w.closedLog ++ [(w.fname, t.writes)] }, none) := by
  simp [finish, ht, hf]

lemma next_stream_eq (w : Writer) (t : Tar) (f : String)
    (ht : w.tarstream = some (some t)) (hf : w.fname = some f)
    (hp : countSites w.pattern = 1) :
    next_stream w =
      ({ w with closes := w.closes + 1,
                closedLog := w.closedLog ++ [(w.fname, t.writes)],
                shard := some w.counter, counter := w.counter + 1,
                fname := some (renderPat w.pattern w.counter),
                tarstream := some (some ⟨[]⟩), count := some 0, size := some 0 },
       none) := by
  simp [next_stream, bindR, finish_open w t f ht hf, claimNext, hp]

lemma init_eq (p : List PatTok) (k m s : Nat) (hp : countSites p = 1) :
    init p k m s =
      ({ maxcount := m, maxsize := s, pattern := p, total := 0,
         fname := some (renderPat p k), tarstream := some (some ⟨[]⟩),
         shard := some k, count := some 0, size := some 0,
         counter := k + 1, closes := 0, closedLog := [] }, none) := by
  simp [init, initPre, next_stream, bindR, finish, claimNext, hp]

lemma init_live (p : List PatTok) (k m s : Nat) (hp : countSites p = 1) :
    (init p k m s).2 = none ∧ Live k (init p k m s).1 ∧
    (init p k m s).1.total = 0 := by
  rw [init_eq p k m s hp]
  exact ⟨rfl, ⟨hp, ⟨⟨[]⟩, rfl⟩, ⟨0, rfl⟩, ⟨0, rfl⟩, ⟨k, rfl⟩,
    ⟨renderPat p k, rfl⟩, rfl⟩, rfl⟩

lemma rotCond_eq (w : Writer) (t : Tar) (c s : Nat)
    (hc : w.count = some c) (hs : w.size = some s) :
    rotCond w (some t) =
      Sum.inr (decide (w.maxcount ≤ c) || decide (w.maxsize ≤ s)) := by
  by_cases h1 : w.maxcount ≤ c <;> simp [rotCond, hc, hs, h1]

lemma write_ok_norot (w : Writer) (t : Tar) (c s b : Nat)
    (ht : w.tarstream = some (some t)) (hc : w.count = some c)
    (hs : w.size = some s)
    (h1 : ¬ w.maxcount ≤ c) (h2 : ¬ w.maxsize ≤ s) :
    write w (WriteObj.ok b) =
      ({ w with tarstream := some (some ⟨t.writes ++ [b]⟩),
                count := some (c + 1), total := w.total + 1,
                size := some (s + b) }, none) := by
  simp [write, ht, rotCond_eq w t c s hc hs, h1, h2, bindR, hc, hs]

lemma write_err_norot (w : Writer) (t : Tar) (c s : Nat)
    (ht : w.tarstream = some (some t)) (hc : w.count = some c)
    (hs : w.size = some s)
    (h1 : ¬ w.maxcount ≤ c) (h2 : ¬ w.maxsize ≤ s) :
    write w WriteObj.err = (w, some PyErr.writeError) := by
  simp [write, ht, rotCond_eq w t c s hc hs, h1, h2, bindR]

lemma write_ok_rot (w : Writer) (t : Tar) (c s b : Nat) (f : String)
    (ht : w.tarstream = some (some t)) (hf : w.fname = some f)
    (hp : countSites w.pattern = 1)
    (hc : w.count = some c) (hs : w.size = some s)
    (hrot : w.maxcount ≤ c ∨ w.maxsize ≤ s) :
    write w (WriteObj.ok b) =
      ({ w with closes := w.closes + 1,
                closedLog := w.closedLog ++ [(w.fname, t.writes)],
                shard := some w.counter, counter := w.counter + 1,
                fname := some (renderPat w.pattern w.counter),
                tarstream := some (some ⟨[b]⟩), count := some 1,
                total := w.total + 1, size := some b }, none) := by
  have hr : rotCond w (some t) = Sum.inr true := by
    rw [rotCond_eq w t c s hc hs]
    rcases hrot with h | h <;> simp [h]
  simp [write, ht, hr, next_stream_eq w t f ht hf hp, bindR]

lemma write_err_rot (w : Writer) (t : Tar) (c s : Nat) (f : String)
    (ht : w.tarstream = some (some t)) (hf : w.fname = some f)
    (hp : countSites w.pattern = 1)
    (hc : w.count = some c) (hs : w.size = some s)
    (hrot : w.maxcount ≤ c ∨ w.maxsize ≤ s) :
    write w WriteObj.err =
      ({ w with closes := w.closes + 1,
                closedLog := w.closedLog ++ [(w.fname, t.writes)],
                shard := some w.counter, counter := w.counter + 1,
                fname := some (renderPat w.pattern w.counter),
                tarstream := some (some ⟨[]⟩), count := some 0,
                size := some 0 }, some PyErr.writeError) := by
  have hr : rotCond w (some t) = Sum.inr true := by
    rw [rotCond_eq w t c s hc hs]
    rcases hrot with h | h <;> simp [h]
  simp [write, ht, hr, next_stream_eq w t f ht hf hp, bindR]

lemma write_step (k0 : Nat) (w : Writer) (obj : WriteObj) (h : Live k0 w) :
    Live k0 (write w obj).1 ∧
    (∀ b, obj = WriteObj.ok b → (write w obj).2 = none ∧
          (write w obj).1.total = w.total + 1) ∧
    (obj = WriteObj.err → (write w obj).2 = some PyErr.writeError ∧
          (write w obj).1.total = w.total) := by
  obtain ⟨hp, ⟨t, ht⟩, ⟨c, hc⟩, ⟨s, hs⟩, ⟨i, hi⟩, ⟨f, hf⟩, hk⟩ := h
  by_cases hrot : w.maxcount ≤ c ∨ w.maxsize ≤ s
  · cases obj with
    | ok b =>
      rw [write_ok_rot w t c s b f ht hf hp hc hs hrot]
      refine ⟨⟨hp, ⟨_, rfl⟩, ⟨_, rfl⟩, ⟨_, rfl⟩, ⟨_, rfl⟩, ⟨_, rfl⟩, ?_⟩, ?_, ?_⟩
      · show w.counter + 1 = k0 + (w.closes + 1) + 1
        omega
      · intro b' hb
        exact ⟨rfl, rfl⟩
      · intro hobj
        cases hobj
    | err =>
      rw [write_err_rot w t c s f ht hf hp hc hs hrot]
      refine ⟨⟨hp, ⟨_, rfl⟩, ⟨_, rfl⟩, ⟨_, rfl⟩, ⟨_, rfl⟩, ⟨_, rfl⟩, ?_⟩, ?_, ?_⟩
      · show w.counter + 1 = k0 + (w.closes + 1) + 1
        omega
      · intro b' hb
        cases hb
      · intro _
        exact ⟨rfl, rfl⟩
  · obtain ⟨h1, h2⟩ := not_or.mp hrot
    cases obj with
    | ok b =>
      rw [write_ok_norot w t c s b ht hc hs h1 h2]
      refine ⟨⟨hp, ⟨_, rfl⟩, ⟨_, rfl⟩, ⟨_, rfl⟩, ⟨i, hi⟩, ⟨f, hf⟩, hk⟩, ?_, ?_⟩
      · intro b' hb
        exact ⟨rfl, rfl⟩
      · intro hobj
        cases hobj
    | err =>
      rw [write_err_norot w t c s ht hc hs h1 h2]
      refine ⟨⟨hp, ⟨t, ht⟩, ⟨c, hc⟩, ⟨s, hs⟩, ⟨i, hi⟩, ⟨f, hf⟩, hk⟩, ?_, ?_⟩
      · intro b' hb
        cases hb
      · intro _
        exact ⟨rfl, rfl⟩

lemma runWrites_live (k0 : Nat) (objs : List WriteObj) (w : Writer)
    (h : Live k0 w) : Live k0 (runWrites w objs).1 := by
  induction objs generalizing w with
  | nil => simpa [runWrites] using h
  | cons o os ih =>
    have hw := (write_step k0 w o h).1
    cases hwo : write w o with
    | mk w' e? =>
      rw [hwo] at hw
      cases e? with
      | none => simpa [runWrites, hwo] using ih w' hw
      | some e => simpa [runWrites, hwo] using hw

lemma runWrites_ok (k0 : Nat) (bs : List Nat) (w : Writer) (h : Live k0 w) :
    (runWrites w (bs.map WriteObj.ok)).2 = none ∧
    Live k0 (runWrites w (bs.map WriteObj.ok)).1 ∧
    (runWrites w (bs.map WriteObj.ok)).1.total = w.total + bs.length := by
  induction bs generalizing w with
  | nil => simpa [runWrites] using h
  | cons b bs ih =>
    obtain ⟨hl, hok, -⟩ := write_step k0 w (WriteObj.ok b) h
    obtain ⟨he, htot⟩ := hok b rfl
    cases hwo : write w (WriteObj.ok b) with
    | mk w' e? =>
      rw [hwo] at hl he htot
      cases he
      obtain ⟨ih1, ih2, ih3⟩ := ih w' hl
      refine ⟨by simpa [runWrites, hwo] using ih1,
        by simpa [runWrites, hwo] using ih2, ?_⟩
      have : (runWrites w (WriteObj.ok b :: bs.map WriteObj.ok)).1 =
          (runWrites w' (bs.map WriteObj.ok)).1 := by simp [runWrites, hwo]
      rw [List.map_cons, this, ih3, htot]
      simp [Nat.add_assoc, Nat.add_comm 1 bs.length]

lemma close_open (w : Writer) (t : Tar) (f : String) (c s i : Nat)
    (ht : w.tarstream = some (some t)) (hf : w.fname = some f)
    (hc : w.count = some c) (hs : w.size = some s) (hi : w.shard = some i) :
    close w = ({ w with closes := w.closes + 1,
                        closedLog := w.closedLog ++ [(w.fname, t.writes)],
                        tarstream := none, shard := none, count := none,
                        size := none }, none) := by
  simp [close, bindR, finish_open w t f ht hf, hc, hs, hi]

lemma ops_after_close (w : Writer) (hts : w.tarstream = none) :
    (∀ obj, write w obj = (w, some PyErr.attributeError)) ∧
    finish w = (w, some PyErr.attributeError) ∧
    close w = (w, some PyErr.attributeError) ∧
    exitContext w = (w, some PyErr.attributeError) := by
  refine ⟨fun obj => ?_, ?_, ?_, ?_⟩ <;>
    simp [write, finish, close, exitContext, bindR, hts]

/-- Claim C1: counter uniqueness of shard index allocation.  For N callers
each performing one atomic lock-protected claim (the read-increment of
next_stream) on a counter starting at k, in any interleaving order
(the schedule list), every caller receives one index, the returned indices
are exactly k, k+1, ..., k+N-1 with no duplicates and no gaps, and the
counter ends at k+N. -/
theorem c1_counter_uniqueness {α : Type} (callers : List α) (k : Nat) :
    (runClaims k callers).1.map Prod.fst = callers ∧
    (runClaims k callers).1.map Prod.snd = List.range' k callers.length ∧
    ((runClaims k callers).1.map Prod.snd).Nodup ∧
    (runClaims k callers).2 = k + callers.length := by
  have main : ∀ (l : List α) (k : Nat),
      (runClaims k l).1.map Prod.fst = l ∧
      (runClaims k l).1.map Prod.snd = List.range' k l.length ∧
      (runClaims k l).2 = k + l.length := by
    intro l
    induction l with
    | nil =>
      intro k
      simp [runClaims]
    | cons a rest ih =>
      intro k
      obtain ⟨h1, h2, h3⟩ := ih (k + 1)
      refine ⟨?_, ?_, ?_⟩
      · simp [runClaims, claimNext, h1]
      · simp [runClaims, claimNext, h2, List.range'_succ]
      · simp [runClaims, claimNext, h3]
        omega
  obtain ⟨h1, h2, h3⟩ := main callers k
  refine ⟨h1, h2, ?_, h3⟩
  rw [h2]
  exact List.nodup_range' k callers.length

/-- Claim C2: soft size cap via check-before-write.  With maxcount 1000 and
maxsize 10 and two writes of 6 reported bytes each, the second write does
not rotate (no extra underlying close, no extra counter claim) and the first
shard size counter reaches 12; only a third write triggers the rotation. -/
theorem c2_soft_size_cap :
    (runWrites (init patC 0 1000 10).1 [WriteObj.ok 6]).1.size = some 6 ∧
    (runWrites (init patC 0 1000 10).1 [WriteObj.ok 6, WriteObj.ok 6]).2 =
      none ∧
    (runWrites (init patC 0 1000 10).1
        [WriteObj.ok 6, WriteObj.ok 6]).1.size = some 12 ∧
    (runWrites (init patC 0 1000 10).1
        [WriteObj.ok 6, WriteObj.ok 6]).1.closes = 0 ∧
    (runWrites (init patC 0 1000 10).1
        [WriteObj.ok 6, WriteObj.ok 6]).1.counter = 1 ∧
    (runWrites (init patC 0 1000 10).1
        [WriteObj.ok 6, WriteObj.ok 6, WriteObj.ok 6]).1.closes = 1 := by
  decide

/-- Claim C3: rotation threshold on record count.  With maxcount 3, seven
writes of 1 reported byte each produce three shards holding 3, 3 and 1
records: the underlying-close count is still 0 after the 3rd write, becomes
1 at the 4th, is still 1 after the 6th and becomes 2 at the 7th; exactly
three shard indices are claimed and the two finalized shards hold three
records each while the open one holds one. -/
theorem c3_rotation_count_threshold :
    (runWrites (init patC 0 3 1000000).1
        (List.replicate 7 (WriteObj.ok 1))).2 = none ∧
    (runWrites (init patC 0 3 1000000).1
        (List.replicate 3 (WriteObj.ok 1))).1.closes = 0 ∧
    (runWrites (init patC 0 3 1000000).1
        (List.replicate 4 (WriteObj.ok 1))).1.closes = 1 ∧
    (runWrites (init patC 0 3 1000000).1
        (List.replicate 6 (WriteObj.ok 1))).1.closes = 1 ∧
    (runWrites (init patC 0 3 1000000).1
        (List.replicate 7 (WriteObj.ok 1))).1.closes = 2 ∧
    (runWrites (init patC 0 3 1000000).1
        (List.replicate 7 (WriteObj.ok 1))).1.closedLog =
      [(some "shard-0.tar", [1, 1, 1]), (some "shard-1.tar", [1, 1, 1])] ∧
    (runWrites (init patC 0 3 1000000).1
        (List.replicate 7 (WriteObj.ok 1))).1.tarstream =
      some (some ⟨[1]⟩) ∧
    (runWrites (init patC 0 3 1000000).1
        (List.replicate 7 (WriteObj.ok 1))).1.count = some 1 ∧
    (runWrites (init patC 0 3 1000000).1
        (List.replicate 7 (WriteObj.ok 1))).1.total = 7 ∧
    (runWrites (init patC 0 3 1000000).1
        (List.replicate 7 (WriteObj.ok 1))).1.counter = 3 := by
  decide

/-- Claim C4: lifetime total invariant.  For a writer constructed with any
well-formed pattern and any limits, after W successful write calls the
lifetime total equals exactly W, regardless of rotations. -/
theorem c4_lifetime_total (p : List PatTok) (k m s : Nat) (bs : List Nat)
    (hp : countSites p = 1) :
    (runWrites (init p k m s).1 (bs.map WriteObj.ok)).2 = none ∧
    (runWrites (init p k m s).1 (bs.map WriteObj.ok)).1.total = bs.length := by
  obtain ⟨-, hl, h0⟩ := init_live p k m s hp
  obtain ⟨h1, -, h3⟩ := runWrites_ok k bs (init p k m s).1 hl
  exact ⟨h1, by rw [h3, h0, Nat.zero_add]⟩

theorem c4_lifetime_total_witness :
    countSites patC = 1 ∧
    ((runWrites (init patC 0 3 5).1
        ([1, 2, 3, 4].map WriteObj.ok)).2 = none ∧
     (runWrites (init patC 0 3 5).1
        ([1, 2, 3, 4].map WriteObj.ok)).1.total = 4) :=
  ⟨by decide, c4_lifetime_total patC 0 3 5 [1, 2, 3, 4] (by decide)⟩

/-- Claim C5, counterexample: the claim that a failed write leaves the
per-shard record count and byte count unchanged from their values before
the call is false when the failing call triggers a rotation first.  With
maxcount 1, after one successful write the count is 1 and the size is 5;
a second write whose underlying write raises first rotates (resetting both
to 0) and then propagates the error, leaving count 0 and size 0. -/
theorem c5_counterexample :
    (write (init patC 0 1 1000).1 (WriteObj.ok 5)).1.count = some 1 ∧
    (write (init patC 0 1 1000).1 (WriteObj.ok 5)).1.size = some 5 ∧
    (write (write (init patC 0 1 1000).1 (WriteObj.ok 5)).1
        WriteObj.err).2 = some PyErr.writeError ∧
    (write (write (init patC 0 1 1000).1 (WriteObj.ok 5)).1
        WriteObj.err).1.count = some 0 ∧
    (write (write (init patC 0 1 1000).1 (WriteObj.ok 5)).1
        WriteObj.err).1.size = some 0 := by
  decide

/-- Claim C5, amended: if the underlying write raises, the error propagates
(no retry) and the lifetime total is unchanged; the failed record is never
recorded.  The per-shard count and size are unchanged when the call did not
trigger a rotation, and are zero (reset by the rotation that preceded the
failed underlying write) when it did. -/
theorem c5_amended_atomic (k0 : Nat) (w : Writer) (h : Live k0 w) :
    (write w WriteObj.err).2 = some PyErr.writeError ∧
    (write w WriteObj.err).1.total = w.total ∧
    (willRotate w = false → (write w WriteObj.err).1 = w) ∧
    (willRotate w = true → (write w WriteObj.err).1.count = some 0 ∧
        (write w WriteObj.err).1.size = some 0) := by
  obtain ⟨hp, ⟨t, ht⟩, ⟨c, hc⟩, ⟨s, hs⟩, ⟨i, hi⟩, ⟨f, hf⟩, hk⟩ := h
  have hwr : willRotate w =
      (decide (w.maxcount ≤ c) || decide (w.maxsize ≤ s)) := by
    simp [willRotate, ht, hc, hs]
  by_cases hrot : w.maxcount ≤ c ∨ w.maxsize ≤ s
  · rw [write_err_rot w t c s f ht hf hp hc hs hrot]
    refine ⟨rfl, rfl, ?_, fun _ => ⟨rfl, rfl⟩⟩
    intro hfalse
    rw [hwr] at hfalse
    rcases hrot with hx | hx <;> simp [hx] at hfalse
  · obtain ⟨h1, h2⟩ := not_or.mp hrot
    rw [write_err_norot w t c s ht hc hs h1 h2]
    refine ⟨rfl, rfl, fun _ => rfl, ?_⟩
    intro htrue
    rw [hwr] at htrue
    simp [h1, h2] at htrue

theorem c5_amended_atomic_witness :
    Live 0 (init patC 0 3 5).1 ∧
    ((write (init patC 0 3 5).1 WriteObj.err).2 = some PyErr.writeError ∧
     (write (init patC 0 3 5).1 WriteObj.err).1.total =
       (init patC 0 3 5).1.total ∧
     (willRotate (init patC 0 3 5).1 = false →
       (write (init patC 0 3 5).1 WriteObj.err).1 = (init patC 0 3 5).1) ∧
     (willRotate (init patC 0 3 5).1 = true →
       (write (init patC 0 3 5).1 WriteObj.err).1.count = some 0 ∧
       (write (init patC 0 3 5).1 WriteObj.err).1.size = some 0)) :=
  ⟨(init_live patC 0 3 5 (by decide)).2.1,
   c5_amended_atomic 0 (init patC 0 3 5).1
     ((init_live patC 0 3 5 (by decide)).2.1)⟩

/-- Claim C6: idempotent finalize.  From a live state, the first finish
performs the underlying close exactly once (the close count rises by one)
and raises nothing; a second finish finds no open stream and is a no-op
raising nothing.  In general, finish on any state whose stream attribute
holds no open stream changes nothing. -/
theorem c6_idempotent_finish (k0 : Nat) (w : Writer) (h : Live k0 w) :
    (finish w).2 = none ∧
    (finish w).1.closes = w.closes + 1 ∧
    (finish w).1.tarstream = some none ∧
    finish (finish w).1 = ((finish w).1, none) ∧
    (∀ v : Writer, v.tarstream = some none → finish v = (v, none)) := by
  obtain ⟨hp, ⟨t, ht⟩, ⟨c, hc⟩, ⟨s, hs⟩, ⟨i, hi⟩, ⟨f, hf⟩, hk⟩ := h
  rw [finish_open w t f ht hf]
  exact ⟨rfl, rfl, rfl, by simp [finish], fun v hv => by simp [finish, hv]⟩

theorem c6_idempotent_finish_witness :
    Live 0 (init patC 0 3 5).1 ∧
    ((finish (init patC 0 3 5).1).2 = none ∧
     (finish (init patC 0 3 5).1).1.closes = (init patC 0 3 5).1.closes + 1 ∧
     (finish (init patC 0 3 5).1).1.tarstream = some none ∧
     finish (finish (init patC 0 3 5).1).1 =
       ((finish (init patC 0 3 5).1).1, none) ∧
     (∀ v : Writer, v.tarstream = some none → finish v = (v, none))) :=
  ⟨(init_live patC 0 3 5 (by decide)).2.1,
   c6_idempotent_finish 0 (init patC 0 3 5).1
     ((init_live patC 0 3 5 (by decide)).2.1)⟩

/-- Claim C7: scoped cleanup.  For a with block around a live writer whose
body is any sequence of writes, possibly raising partway through, close runs
on block exit: the stream attribute is deleted, exactly one more underlying
close happens than at the end of the body, every claimed shard index has
been finalized (closes equals counter minus the initial counter value), and
the body error, if any, still propagates. -/
theorem c7_scoped_cleanup (k0 : Nat) (w : Writer) (objs : List WriteObj)
    (h : Live k0 w) :
    (withBlock w objs).1.tarstream = none ∧
    (withBlock w objs).1.shard = none ∧
    (withBlock w objs).1.count = none ∧
    (withBlock w objs).1.size = none ∧
    (withBlock w objs).1.closes = (runWrites w objs).1.closes + 1 ∧
    (withBlock w objs).1.counter = k0 + (withBlock w objs).1.closes ∧
    (withBlock w objs).2 = (runWrites w objs).2 := by
  have hl := runWrites_live k0 objs w h
  obtain ⟨hp, ⟨t, ht⟩, ⟨c, hc⟩, ⟨s, hs⟩, ⟨i, hi⟩, ⟨f, hf⟩, hk⟩ := hl
  have hcl := close_open (runWrites w objs).1 t f c s i ht hf hc hs hi
  refine ⟨?_, ?_, ?_, ?_, ?_, ?_, ?_⟩ <;> simp only [withBlock, hcl]
  omega

theorem c7_scoped_cleanup_witness :
    Live 0 (init patC 0 3 5).1 ∧
    ((withBlock (init patC 0 3 5).1
        [WriteObj.ok 2, WriteObj.err, WriteObj.ok 9]).1.tarstream = none ∧
     (withBlock (init patC 0 3 5).1
        [WriteObj.ok 2, WriteObj.err, WriteObj.ok 9]).1.shard = none ∧
     (withBlock (init patC 0 3 5).1
        [WriteObj.ok 2, WriteObj.err, WriteObj.ok 9]).1.count = none ∧
     (withBlock (init patC 0 3 5).1
        [WriteObj.ok 2, WriteObj.err, WriteObj.ok 9]).1.size = none ∧
     (withBlock (init patC 0 3 5).1
        [WriteObj.ok 2, WriteObj.err, WriteObj.ok 9]).1.closes =
       (runWrites (init patC 0 3 5).1
        [WriteObj.ok 2, WriteObj.err, WriteObj.ok 9]).1.closes + 1 ∧
     (withBlock (init patC 0 3 5).1
        [WriteObj.ok 2, WriteObj.err, WriteObj.ok 9]).1.counter =
       0 + (withBlock (init patC 0 3 5).1
        [WriteObj.ok 2, WriteObj.err, WriteObj.ok 9]).1.closes ∧
     (withBlock (init patC 0 3 5).1
        [WriteObj.ok 2, WriteObj.err, WriteObj.ok 9]).2 =
       (runWrites (init patC 0 3 5).1
        [WriteObj.ok 2, WriteObj.err, WriteObj.ok 9]).2) :=
  ⟨(init_live patC 0 3 5 (by decide)).2.1,
   c7_scoped_cleanup 0 (init patC 0 3 5).1
     [WriteObj.ok 2, WriteObj.err, WriteObj.ok 9]
     ((init_live patC 0 3 5 (by decide)).2.1)⟩

/-- Claim C8: eager first-shard open at construction.  Constructing with a
well-formed pattern performs exactly one rotation: one shard index is
claimed (the counter rises from k to k+1 and the shard field holds k), the
pattern is formatted with that index, a fresh underlying archive writer with
no records is opened, the per-shard record and byte counters are zero, and
no underlying close has happened. -/
theorem c8_eager_first_shard (p : List PatTok) (k m s : Nat)
    (hp : countSites p = 1) :
    init p k m s =
      ({ maxcount := m, maxsize := s, pattern := p, total := 0,
         fname := some (renderPat p k), tarstream := some (some ⟨[]⟩),
         shard := some k, count := some 0, size := some 0,
         counter := k + 1, closes := 0, closedLog := [] }, none) :=
  init_eq p k m s hp

theorem c8_eager_first_shard_witness :
    countSites patC = 1 ∧
    init patC 5 7 9 =
      ({ maxcount := 7, maxsize := 9, pattern := patC, total := 0,
         fname := some (renderPat patC 5), tarstream := some (some ⟨[]⟩),
         shard := some 5, count := some 0, size := some 0,
         counter := 6, closes := 0, closedLog := [] }, none) :=
  ⟨by decide, c8_eager_first_shard patC 5 7 9 (by decide)⟩

/-- Claim C9: malformed-pattern error timing.  The constructor is literally
the field assignments followed by next_stream, with no separate validation
step, so a pattern with no substitution site raises the formatting error at
the first rotation: construction fails with a type error raised after the
shard index was already claimed (counter incremented, shard field set), and
the filename and stream were never produced. -/
theorem c9_pattern_error_at_first_rotation (p : List PatTok) (k m s : Nat)
    (hp : countSites p = 0) :
    init p k m s = next_stream (initPre p k m s) ∧
    (init p k m s).2 = some PyErr.typeError ∧
    (init p k m s).1.shard = some k ∧
    (init p k m s).1.counter = k + 1 ∧
    (init p k m s).1.fname = none ∧
    (init p k m s).1.tarstream = some none ∧
    (init p k m s).1.pattern = p := by
  refine ⟨rfl, ?_, ?_, ?_, ?_, ?_, ?_⟩ <;>
    simp [init, initPre, next_stream, bindR, finish, claimNext, hp]

theorem c9_pattern_error_witness :
    countSites [PatTok.lit "x"] = 0 ∧
    (init [PatTok.lit "x"] 7 3 4 =
       next_stream (initPre [PatTok.lit "x"] 7 3 4) ∧
     (init [PatTok.lit "x"] 7 3 4).2 = some PyErr.typeError ∧
     (init [PatTok.lit "x"] 7 3 4).1.shard = some 7 ∧
     (init [PatTok.lit "x"] 7 3 4).1.counter = 8 ∧
     (init [PatTok.lit "x"] 7 3 4).1.fname = none ∧
     (init [PatTok.lit "x"] 7 3 4).1.tarstream = some none ∧
     (init [PatTok.lit "x"] 7 3 4).1.pattern = [PatTok.lit "x"]) :=
  ⟨by decide, c9_pattern_error_at_first_rotation [PatTok.lit "x"] 7 3 4
    (by decide)⟩

/-- Claim C10: use-after-close raises.  From a live state, close succeeds
and deletes the stream, shard, count and size attributes; afterwards any
write, finish, a second close, and the context-manager exit hook all raise
an attribute error and change nothing, so close, unlike finish, is not
idempotent. -/
theorem c10_use_after_close (k0 : Nat) (w : Writer) (h : Live k0 w) :
    (close w).2 = none ∧
    (close w).1.tarstream = none ∧
    (close w).1.shard = none ∧
    (close w).1.count = none ∧
    (close w).1.size = none ∧
    (∀ obj, write (close w).1 obj =
      ((close w).1, some PyErr.attributeError)) ∧
    finish (close w).1 = ((close w).1, some PyErr.attributeError) ∧
    close (close w).1 = ((close w).1, some PyErr.attributeError) ∧
    exitContext (close w).1 = ((close w).1, some PyErr.attributeError) := by
  obtain ⟨hp, ⟨t, ht⟩, ⟨c, hc⟩, ⟨s, hs⟩, ⟨i, hi⟩, ⟨f, hf⟩, hk⟩ := h
  rw [close_open w t f c s i ht hf hc hs hi]
  obtain ⟨ha, hb, hcc, hd⟩ := ops_after_close
    { w with closes := w.closes + 1,
             closedLog := w.closedLog ++ [(w.fname, t.writes)],
             tarstream := none, shard := none, count := none, size := none }
    rfl
  exact ⟨rfl, rfl, rfl, rfl, rfl, ha, hb, hcc, hd⟩

theorem c10_use_after_close_witness :
    Live 0 (init patC 0 3 5).1 ∧
    ((close (init patC 0 3 5).1).2 = none ∧
     (close (init patC 0 3 5).1).1.tarstream = none ∧
     (close (init patC 0 3 5).1).1.shard = none ∧
     (close (init patC 0 3 5).1).1.count = none ∧
     (close (init patC 0 3 5).1).1.size = none ∧
     (∀ obj, write (close (init patC 0 3 5).1).1 obj =
       ((close (init patC 0 3 5).1).1, some PyErr.attributeError)) ∧
     finish (close (init patC 0 3 5).1).1 =
       ((close (init patC 0 3 5).1).1, some PyErr.attributeError) ∧
     close (close (init patC 0 3 5).1).1 =
       ((close (init patC 0 3 5).1).1, some PyErr.attributeError) ∧
     exitContext (close (init patC 0 3 5).1).1 =
       ((close (init patC 0 3 5).1).1, some PyErr.attributeError)) :=
  ⟨(init_live patC 0 3 5 (by decide)).2.1,
   c10_use_after_close 0 (init patC 0 3 5).1
     ((init_live patC 0 3 5 (by decide)).2.1)⟩

end Wds
